import Mathlib

/-!
Verification development for the endpoint-registration handshake of
`src/lib/api/register-endpoint.ts` (skype-http): challenge computation,
structured-header encoding/decoding, and the bounded redirect-retry
protocol with response validation.

Helper modules referenced by the handshake (`../utils`, `../consts`,
`../utils/hmac-sha256`, the `url` parser and the JavaScript builtins
`parseInt`/`trim`) are external to the handshake source file; they are
modelled here from the specification, each with a doc comment saying so.
The handshake itself (`registerEndpoint`) is translated directly from the
source.
-/

set_option maxHeartbeats 1000000

namespace SkypeHttp

/-- Modelled from the spec: the whitespace class used when trimming header
segments (space, tab, line feed, carriage return), expressed on the
character's code point. -/
def wsp (c : Char) : Bool :=
  decide (c.toNat = 32 ∨ c.toNat = 9 ∨ c.toNat = 10 ∨ c.toNat = 13)

/-- Modelled from the spec: a decimal digit character, expressed on the
character's code point (48 = `0` .. 57 = `9`). -/
def isDecDigit (c : Char) : Bool :=
  decide (48 ≤ c.toNat ∧ c.toNat ≤ 57)

/-- Modelled from the spec: trimming whitespace from both ends of a header
segment (§4.1 "splits on `;`, trims whitespace"). -/
def trimChars (cs : List Char) : List Char :=
  ((cs.dropWhile wsp).reverse.dropWhile wsp).reverse

/-- Modelled from the spec: splitting a header value on `;` (§4.1); every
semicolon separates two segments, so the result is always non-empty. -/
def splitSemi : List Char → List (List Char)
  | [] => [[]]
  | c :: cs =>
    if c = ';' then [] :: splitSemi cs
    else
      let r := splitSemi cs
      (c :: r.headI) :: r.tail

/-- Modelled from the spec: splitting a segment on the first `=` into a
key/value pair; a segment with no `=` is malformed and yields `none`
(§4.1 "fails silently"). -/
def splitEq : List Char → Option (List Char × List Char)
  | [] => none
  | c :: cs =>
    if c = '=' then some ([], cs)
    else (splitEq cs).map (fun q => (c :: q.1, q.2))

/-- Modelled from the spec: `HeaderCodec.parse` at the character level —
split on `;`, trim whitespace, split each segment on the first `=`,
silently dropping malformed segments (§4.1). -/
def parseHP (cs : List Char) : List (List Char × List Char) :=
  (splitSemi cs).filterMap (fun seg => splitEq (trimChars seg))

/-- Modelled from the spec: `HeaderCodec.stringify` at the character level —
render each pair as `key=value` and join the pairs with `; ` (§4.1). -/
def stringifyHP : List (List Char × List Char) → List Char
  | [] => []
  | [p] => p.1 ++ '=' :: p.2
  | p :: q :: ps => p.1 ++ '=' :: (p.2 ++ ';' :: ' ' :: stringifyHP (q :: ps))

/-- Modelled from the spec: `parseHeaderParams` from the missing `utils`
module (§4.1 `HeaderCodec.parse`), as an ordered key/value list in which a
later occurrence of a key overrides an earlier one. -/
def parseHeaderParams (s : String) : List (String × String) :=
  (parseHP s.data).map (fun q => (String.mk q.1, String.mk q.2))

/-- Modelled from the spec: `stringifyHeaderParams` from the missing
`utils` module (§4.1 `HeaderCodec.stringify`). -/
def stringifyHeaderParams (ps : List (String × String)) : String :=
  String.mk (stringifyHP (ps.map (fun p => (p.1.data, p.2.data))))

/-- Lookup in a parsed header in which the last occurrence of a duplicate
key wins (§4.1), mirroring assignment into a JavaScript dictionary. -/
def lookupLast (ps : List (String × String)) (k : String) : Option String :=
  ps.foldl (fun acc p => if p.1 = k then some p.2 else acc) none

/-- Modelled from the spec: JavaScript truthiness of a dictionary lookup —
an absent key (`undefined`) and an empty string are both falsy. -/
def jsTruthy : Option String → Bool
  | none => false
  | some s => s != ""

/-- Value of a list of decimal digit characters, most significant first. -/
def digitsValue (ds : List Char) : Nat :=
  ds.foldl (fun a c => 10 * a + (c.toNat - 48)) 0

/-- Modelled from the spec: the digit-run scan of JavaScript
`parseInt(_, 10)` — take the leading decimal digits; if there are none the
result is `NaN`, modelled as `none`. -/
def parseDecDigits (cs : List Char) : Option Nat :=
  let ds := cs.takeWhile isDecDigit
  if ds.isEmpty then none else some (digitsValue ds)

/-- Modelled from the spec: JavaScript `parseInt(_, 10)` on a character
list — skip leading whitespace, allow one sign, read leading decimal
digits; `none` models `NaN`. -/
def parseIntChars (cs : List Char) : Option Int :=
  match cs.dropWhile wsp with
  | [] => none
  | c :: rest =>
    if c = '-' then (parseDecDigits rest).map (fun n => -(n : Int))
    else if c = '+' then (parseDecDigits rest).map (fun n => (n : Int))
    else (parseDecDigits (c :: rest)).map (fun n => (n : Int))

/-- Modelled from the spec: JavaScript `parseInt(s, 10)` used to read the
`expires` field (§4.3 step 9); `none` models `NaN`. -/
def parseIntJS (s : String) : Option Int :=
  parseIntChars s.data

/-- Modelled from the spec: the external URI parser (`url.parse`) host
component — the text between `://` and the next delimiter; `none` when the
URI is host-relative or the authority is empty (§4.3 step 6). -/
def findSchemeAuthority : List Char → Option (List Char)
  | [] => none
  | ':' :: '/' :: '/' :: rest => some rest
  | _ :: cs => findSchemeAuthority cs

/-- Modelled from the spec: the host component of a `location` header value
(§4.3 step 6, §6 "absolute or host-relative URI"). -/
def uriHost (s : String) : Option String :=
  match findSchemeAuthority s.data with
  | none => none
  | some rest =>
    let h := rest.takeWhile (fun c => !(c = '/' || c = '?' || c = '#'))
    if h.isEmpty then none else some (String.mk h)

/-- Modelled from the spec: the protocol-defined default messages host
(`Consts.SKYPEWEB_DEFAULT_MESSAGES_HOST`, constants module not included in
the handshake source). -/
def SKYPEWEB_DEFAULT_MESSAGES_HOST : String := "client-s.gateway.messenger.live.com"

/-- Modelled from the spec: the fixed application identity
(`Consts.SKYPEWEB_LOCKANDKEY_APPID`); the concrete value is
protocol-mandated and irrelevant to the claims. -/
def SKYPEWEB_LOCKANDKEY_APPID : String := "msmsgs@msnmsgr.com"

/-- Modelled from the spec: the fixed application secret
(`Consts.SKYPEWEB_LOCKANDKEY_SECRET`); the concrete value is
protocol-mandated and irrelevant to the claims. -/
def SKYPEWEB_LOCKANDKEY_SECRET : String := "Q1P7W2E4J9R8U3S5"

/-- UTF-8 bytes of a string, modelling `Buffer.from(s, "utf8")`. -/
def utf8Bytes (s : String) : List Nat :=
  s.toUTF8.toList.map (fun b => b.toNat)

/-- Source `getLockAndKeyResponse(time)`: hash the decimal rendering of the
timestamp with the two fixed application constants. The keyed-hash
primitive `hmacSha256` is an external black box (§4.2) and is therefore a
parameter: any pure function of the three byte sequences. -/
def getLockAndKeyResponse (hmac : List Nat → List Nat → List Nat → String)
    (time : Int) : String :=
  hmac (utf8Bytes (toString time)) (utf8Bytes SKYPEWEB_LOCKANDKEY_APPID)
    (utf8Bytes SKYPEWEB_LOCKANDKEY_SECRET)

/-- Modelled from the spec: §4.2 `computeResponse(timestamp, appId, secret)`
— encode the timestamp as its decimal string, encode `appId` and `secret`
as byte sequences, and produce the digest through the keyed hash. Stated
from the spec's words for comparison with `getLockAndKeyResponse`. -/
def computeResponse (hmac : List Nat → List Nat → List Nat → String)
    (timestamp : Int) (appId secret : String) : String :=
  hmac (utf8Bytes (toString timestamp)) (utf8Bytes appId) (utf8Bytes secret)

/-- Ambient effectful state an invocation could read: the clock and the
transport. The challenge computation must touch neither (§4.2). -/
structure World where
  clockSeconds : Int
  transportLog : List String
  deriving DecidableEq

/-- An invocation of the challenge computation in a given world state:
the source reads neither the clock nor the transport inside
`getLockAndKeyResponse`, so the returned world is the input world. -/
def invokeLockAndKeyResponse (w : World)
    (hmac : List Nat → List Nat → List Nat → String) (time : Int) :
    String × World :=
  (getLockAndKeyResponse hmac time, w)

/-- Response of one HTTP POST as the handshake reads it: the status code
and the only two headers the source consults, `location` and
`set-registrationtoken`; an absent header is `none` (JavaScript
`undefined`). -/
structure Response where
  statusCode : Nat
  locationHeader : Option String
  setRegistrationTokenHeader : Option String
  deriving DecidableEq

/-- Source `RegistrationToken`: `expirationDate` is milliseconds since the
epoch, with `none` modelling a JavaScript invalid date (`NaN`
milliseconds). -/
structure RegistrationToken where
  value : String
  expirationDate : Option Int
  endpointId : String
  raw : String
  host : String
  deriving DecidableEq

/-- Source `RegisterEndpointOptions`: both fields optional. -/
structure RegisterEndpointOptions where
  messagesHost : Option String
  retry : Option Int
  deriving DecidableEq

/-- Outcome of a run of `registerEndpoint` against a finite script of
transport responses. `runtimeTypeError` models a raw JavaScript
`TypeError` escaping (e.g. `url.parse(undefined)`), which is outside the
spec's error taxonomy; `outOfResponses` means the script was exhausted
while the client was still about to issue another POST. -/
inductive RunResult where
  | ok (token : RegistrationToken)
  | unexpectedStatus (res : Response) (accepted : List Nat)
  | runtimeTypeError
  | undefinedLocationHost (res : Response)
  | retriesExhausted
  | missingTokenFields
  | outOfResponses (pendingHost : String) (pendingRetry : Int)
  deriving DecidableEq

/-- Source: `const expectedStatusCodes: Set<number> = new Set([201, 301])`. -/
def expectedStatusCodes : List Nat := [201, 301]

/-- Source `registerEndpoint`, with the transport modelled as a finite
script of responses consumed one per POST; the second component counts the
POSTs issued. The recursion mirrors the source exactly — in particular the
redirect branch recurses with `{messagesHost: location.host, retry}`, the
retry budget unchanged. -/
def registerEndpointGo : List Response → String → Int → RunResult × Nat
  | [], messagesHost, retry => (RunResult.outOfResponses messagesHost retry, 0)
  | res :: rest, messagesHost, retry =>
    if !(expectedStatusCodes.contains res.statusCode) then
      (RunResult.unexpectedStatus res expectedStatusCodes, 1)
    else
      match res.locationHeader with
      | none => (RunResult.runtimeTypeError, 1)
      | some locationHeader =>
        match uriHost locationHeader with
        | none => (RunResult.undefinedLocationHost res, 1)
        | some locationHost =>
          if locationHost ≠ messagesHost then
            if retry > 0 then
              let r := registerEndpointGo rest locationHost retry
              (r.1, r.2 + 1)
            else
              (RunResult.retriesExhausted, 1)
          else
            match res.setRegistrationTokenHeader with
            | none => (RunResult.runtimeTypeError, 1)
            | some registrationTokenHeader =>
              let parsedHeader := parseHeaderParams registrationTokenHeader
              if !(jsTruthy (lookupLast parsedHeader "registrationToken"))
                  || !(jsTruthy (lookupLast parsedHeader "expires"))
                  || !(jsTruthy (lookupLast parsedHeader "endpointId")) then
                (RunResult.missingTokenFields, 1)
              else
                (RunResult.ok
                  { value := (lookupLast parsedHeader "registrationToken").getD ""
                    expirationDate :=
                      (parseIntJS ((lookupLast parsedHeader "expires").getD "")).map
                        (fun n => 1000 * n)
                    endpointId := (lookupLast parsedHeader "endpointId").getD ""
                    raw := registrationTokenHeader
                    host := messagesHost }, 1)

/-- Source `registerEndpoint` entry point: resolve the option defaults
(`messagesHost` to the protocol default, `retry` to 2) and run. -/
def registerEndpoint (responses : List Response)
    (options : Option RegisterEndpointOptions) : RunResult × Nat :=
  let messagesHost : String :=
    match options with
    | none => SKYPEWEB_DEFAULT_MESSAGES_HOST
    | some o => o.messagesHost.getD SKYPEWEB_DEFAULT_MESSAGES_HOST
  let retry : Int :=
    match options with
    | none => 2
    | some o => o.retry.getD 2
  registerEndpointGo responses messagesHost retry

/-- Wire segment of one key/value pair: `key=value`. -/
def segHP (p : List Char × List Char) : List Char :=
  p.1 ++ '=' :: p.2

theorem splitSemi_no_semi (a : List Char) (h : ';' ∉ a) : splitSemi a = [a] := by
  induction a with
  | nil => rfl
  | cons c cs ih =>
    have hc : ¬(c = ';') := fun e => h (e ▸ List.mem_cons_self c cs)
    have hcs : ';' ∉ cs := fun m => h (List.mem_cons_of_mem c m)
    simp [splitSemi, hc, ih hcs, List.headI]

theorem splitSemi_append (a b : List Char) (h : ';' ∉ a) :
    splitSemi (a ++ ';' :: b) = a :: splitSemi b := by
  induction a with
  | nil => simp [splitSemi]
  | cons c cs ih =>
    have hc : ¬(c = ';') := fun e => h (e ▸ List.mem_cons_self c cs)
    have hcs : ';' ∉ cs := fun m => h (List.mem_cons_of_mem c m)
    simp [splitSemi, hc, ih hcs, List.headI]

theorem trimChars_cons_space (xs : List Char) :
    trimChars (' ' :: xs) = trimChars xs := by
  have h : wsp ' ' = true := by decide
  simp [trimChars, List.dropWhile_cons, h]

theorem splitEq_append (k v : List Char) (h : '=' ∉ k) :
    splitEq (k ++ '=' :: v) = some (k, v) := by
  induction k with
  | nil => simp [splitEq]
  | cons c cs ih =>
    have hc : ¬(c = '=') := fun e => h (e ▸ List.mem_cons_self c cs)
    have hcs : '=' ∉ cs := fun m => h (List.mem_cons_of_mem c m)
    simp [splitEq, hc, ih hcs]

theorem filterMap_id_of_some {α : Type} (f : α → Option α) (l : List α)
    (h : ∀ a ∈ l, f a = some a) : l.filterMap f = l := by
  induction l with
  | nil => rfl
  | cons a l ih =>
    rw [List.filterMap_cons, h a (List.mem_cons_self a l),
      ih (fun b hb => h b (List.mem_cons_of_mem a hb))]

theorem semi_not_mem_segHP (p : List Char × List Char)
    (h1 : ';' ∉ p.1) (h2 : ';' ∉ p.2) : ';' ∉ segHP p := by
  simp only [segHP, List.mem_append, List.mem_cons]
  rintro (hm | hm | hm)
  · exact h1 hm
  · exact absurd hm (by decide)
  · exact h2 hm

theorem splitSemi_stringifyHP (p : List Char × List Char)
    (ps : List (List Char × List Char))
    (h : ∀ q ∈ p :: ps, ';' ∉ q.1 ∧ ';' ∉ q.2) :
    splitSemi (stringifyHP (p :: ps)) =
      segHP p :: ps.map (fun q => ' ' :: segHP q) := by
  induction ps generalizing p with
  | nil =>
    have hp := h p (List.mem_cons_self p [])
    have : stringifyHP [p] = segHP p := rfl
    rw [this, splitSemi_no_semi (segHP p) (semi_not_mem_segHP p hp.1 hp.2)]
    rfl
  | cons q ps ih =>
    have hp := h p (List.mem_cons_self p (q :: ps))
    have hrest : ∀ r ∈ q :: ps, ';' ∉ r.1 ∧ ';' ∉ r.2 :=
      fun r hr => h r (List.mem_cons_of_mem p hr)
    have hshape : stringifyHP (p :: q :: ps) =
        segHP p ++ ';' :: (' ' :: stringifyHP (q :: ps)) := by
      simp [stringifyHP, segHP, List.append_assoc]
    rw [hshape, splitSemi_append (segHP p) (' ' :: stringifyHP (q :: ps))
      (semi_not_mem_segHP p hp.1 hp.2)]
    have hspace : splitSemi (' ' :: stringifyHP (q :: ps)) =
        (' ' :: segHP q) :: ps.map (fun r => ' ' :: segHP r) := by
      have hne : ¬((' ' : Char) = ';') := by decide
      simp [splitSemi, hne, ih q hrest, List.headI]
    rw [hspace]
    rfl

theorem parseHP_stringifyHP (ps : List (List Char × List Char))
    (h : ∀ p ∈ ps, ';' ∉ p.1 ∧ '=' ∉ p.1 ∧ ';' ∉ p.2 ∧
      trimChars (segHP p) = segHP p) :
    parseHP (stringifyHP ps) = ps := by
  cases ps with
  | nil => rfl
  | cons p ps =>
    have hsemi : ∀ q ∈ p :: ps, ';' ∉ q.1 ∧ ';' ∉ q.2 :=
      fun q hq => ⟨(h q hq).1, (h q hq).2.2.1⟩
    rw [parseHP, splitSemi_stringifyHP p ps hsemi, List.filterMap_cons]
    have hp := h p (List.mem_cons_self p ps)
    rw [hp.2.2.2, segHP, splitEq_append p.1 p.2 hp.2.1]
    have hrest : (ps.map (fun q => ' ' :: segHP q)).filterMap
        (fun seg => splitEq (trimChars seg)) = ps := by
      rw [List.filterMap_map]
      apply filterMap_id_of_some
      intro q hq
      have hqq := h q (List.mem_cons_of_mem p hq)
      show splitEq (trimChars (' ' :: segHP q)) = some q
      rw [trimChars_cons_space, hqq.2.2.2, segHP,
        splitEq_append q.1 q.2 hqq.2.1]
    rw [hrest]

/-- C6: for every `HeaderParams` mapping built by this core — keys free of
`;` and `=`, values free of `;`, each rendered segment already trimmed —
parsing the stringified form returns the original mapping. -/
theorem parse_stringify_roundtrip (ps : List (String × String))
    (h : ∀ p ∈ ps, ';' ∉ p.1.data ∧ '=' ∉ p.1.data ∧ ';' ∉ p.2.data ∧
      trimChars (p.1.data ++ '=' :: p.2.data) = p.1.data ++ '=' :: p.2.data) :
    parseHeaderParams (stringifyHeaderParams ps) = ps := by
  unfold parseHeaderParams stringifyHeaderParams
  have hdata : (String.mk (stringifyHP (ps.map (fun p => (p.1.data, p.2.data))))).data
      = stringifyHP (ps.map (fun p => (p.1.data, p.2.data))) := rfl
  rw [hdata, parseHP_stringifyHP (ps.map (fun p => (p.1.data, p.2.data)))]
  · rw [List.map_map]
    have heach : ∀ p : String × String,
        ((fun q : List Char × List Char => (String.mk q.1, String.mk q.2)) ∘
          (fun p : String × String => (p.1.data, p.2.data))) p = p := by
      intro p; rfl
    rw [List.map_congr_left (fun p _ => heach p)]
    exact List.map_id' ps
  · intro q hq
    obtain ⟨p, hp, hpq⟩ := List.mem_map.mp hq
    subst hpq
    exact h p hp

/-- C6 witness: the round-trip law at a concrete mapping of the kind the
core builds for the `LockAndKey` header. -/
theorem parse_stringify_roundtrip_witness :
    parseHeaderParams (stringifyHeaderParams
      [("appId", "msmsgs@msnmsgr.com"), ("time", "1700000000"),
       ("lockAndKeyResponse", "0a1b2c3d")]) =
    [("appId", "msmsgs@msnmsgr.com"), ("time", "1700000000"),
     ("lockAndKeyResponse", "0a1b2c3d")] :=
  parse_stringify_roundtrip
    [("appId", "msmsgs@msnmsgr.com"), ("time", "1700000000"),
     ("lockAndKeyResponse", "0a1b2c3d")] (by decide)

theorem takeWhile_eq_self_of_all {α : Type} (p : α → Bool) (l : List α)
    (h : ∀ a ∈ l, p a = true) : l.takeWhile p = l := by
  induction l with
  | nil => rfl
  | cons a l ih =>
    rw [List.takeWhile_cons_of_pos (h a (List.mem_cons_self a l)),
      ih (fun b hb => h b (List.mem_cons_of_mem a hb))]

theorem parseIntJS_digits (s : String) (h1 : s.data ≠ [])
    (h2 : ∀ c ∈ s.data, isDecDigit c = true) :
    parseIntJS s = some ((digitsValue s.data : Int)) := by
  obtain ⟨c, cs, hcs⟩ : ∃ c cs, s.data = c :: cs := by
    cases hd : s.data with
    | nil => exact absurd hd h1
    | cons c cs => exact ⟨c, cs, rfl⟩
  have hcd : isDecDigit c = true := h2 c (hcs ▸ List.mem_cons_self c cs)
  have hrange : 48 ≤ c.toNat ∧ c.toNat ≤ 57 := of_decide_eq_true hcd
  have hwsp : ¬(wsp c = true) := by
    intro hw
    have hw2 := of_decide_eq_true hw
    omega
  have hminus : ¬(c = '-') := by
    intro e
    rw [e] at hrange
    revert hrange
    decide
  have hplus : ¬(c = '+') := by
    intro e
    rw [e] at hrange
    revert hrange
    decide
  have hall : ∀ a ∈ c :: cs, isDecDigit a = true := hcs ▸ h2
  simp only [parseIntJS, parseIntChars, hcs, List.dropWhile_cons_of_neg hwsp,
    if_neg hminus, if_neg hplus, parseDecDigits,
    takeWhile_eq_self_of_all isDecDigit (c :: cs) hall]
  simp [digitsValue]

theorem contains_expected (n : Nat) (h : n = 201 ∨ n = 301) :
    expectedStatusCodes.contains n = true := by
  rcases h with h | h <;> subst h <;> decide

theorem expected_of_contains (n : Nat)
    (h : expectedStatusCodes.contains n = true) : n = 201 ∨ n = 301 := by
  have hm : n ∈ expectedStatusCodes := by
    simpa using h
  simpa [expectedStatusCodes] using hm

/-- C7: the challenge-response computation is deterministic and effect-free
— its result is the same in any two world states (it reads neither the
clock nor the transport), an invocation leaves the world unchanged, and it
agrees with the spec's `computeResponse` applied to the fixed application
constants. -/
theorem getLockAndKeyResponse_deterministic
    (hmac : List Nat → List Nat → List Nat → String) (t : Int)
    (w1 w2 : World) :
    (invokeLockAndKeyResponse w1 hmac t).1 = (invokeLockAndKeyResponse w2 hmac t).1 ∧
    (invokeLockAndKeyResponse w1 hmac t).2 = w1 ∧
    getLockAndKeyResponse hmac t =
      computeResponse hmac t SKYPEWEB_LOCKANDKEY_APPID SKYPEWEB_LOCKANDKEY_SECRET :=
  ⟨rfl, rfl, rfl⟩

/-- C1 (refuting the decrement): with retry budget 1 and a transport that
answers three times with status 301, each time redirecting to a host
different from the one queried, the client issues 3 POSTs — more than the
claimed bound retry + 1 = 2 — and is still about to retry with an
undiminished budget of 1, because the source recurses with
`{messagesHost: location.host, retry}` instead of `retry - 1`. -/
theorem registerEndpoint_retry_not_decremented :
    registerEndpoint
      [⟨301, some "https://hostB/v1/users/ME/endpoints", none⟩,
       ⟨301, some "https://hostA/v1/users/ME/endpoints", none⟩,
       ⟨301, some "https://hostB/v1/users/ME/endpoints", none⟩]
      (some ⟨some "hostA", some 1⟩) =
    (RunResult.outOfResponses "hostB" 1, 3) := by decide

/-- C3: a response whose status code is neither 201 nor 301 makes
`registerEndpoint` fail immediately with the unexpected-status error
carrying the response and the accepted-code set, after exactly one POST
and regardless of the remaining retry budget. -/
theorem registerEndpoint_unexpected_status (res : Response)
    (rest : List Response) (host : String) (retry : Int)
    (h1 : res.statusCode ≠ 201) (h2 : res.statusCode ≠ 301) :
    registerEndpointGo (res :: rest) host retry =
      (RunResult.unexpectedStatus res expectedStatusCodes, 1) := by
  have hm : res.statusCode ∉ expectedStatusCodes := by
    simp [expectedStatusCodes, h1, h2]
  simp [registerEndpointGo, hm]

/-- C3 witness: a 404 response fails with the unexpected-status error after
one POST. -/
theorem registerEndpoint_unexpected_status_witness :
    registerEndpointGo
      [⟨404, some "https://hostA/v1/users/ME/endpoints", none⟩]
      "hostA" 2 =
    (RunResult.unexpectedStatus
      ⟨404, some "https://hostA/v1/users/ME/endpoints", none⟩
      expectedStatusCodes, 1) :=
  registerEndpoint_unexpected_status
    ⟨404, some "https://hostA/v1/users/ME/endpoints", none⟩ [] "hostA" 2
    (by decide) (by decide)

/-- C8: an accepted response (201 or 301) that carries no `location` header
at all makes the client evaluate `parseUri(undefined)`, which surfaces as
a raw runtime type error — outside the spec's error taxonomy, and distinct
from the missing-redirect-host failure that covers a present header whose
URI lacks a host. -/
theorem registerEndpoint_missing_location (res : Response)
    (rest : List Response) (host : String) (retry : Int)
    (hs : res.statusCode = 201 ∨ res.statusCode = 301)
    (hl : res.locationHeader = none) :
    registerEndpointGo (res :: rest) host retry =
      (RunResult.runtimeTypeError, 1) := by
  have hm : res.statusCode ∈ expectedStatusCodes := by
    rcases hs with h | h <;> simp [expectedStatusCodes, h]
  simp [registerEndpointGo, hm, hl]

/-- C8 witness: a 201 response with no `location` header crashes with the
raw runtime type error. -/
theorem registerEndpoint_missing_location_witness :
    registerEndpointGo
      [⟨201, none, some "registrationToken=abc; expires=1; endpointId={x}"⟩]
      "hostA" 2 =
    (RunResult.runtimeTypeError, 1) :=
  registerEndpoint_missing_location
    ⟨201, none, some "registrationToken=abc; expires=1; endpointId={x}"⟩
    [] "hostA" 2 (Or.inl rfl) rfl

/-- C4: an accepted, host-matching response whose parsed
`set-registrationtoken` header lacks one of the keys `registrationToken`,
`expires`, `endpointId` fails terminally with the missing-token-fields
error after one POST, returning no token. -/
theorem registerEndpoint_missing_token_fields (res : Response)
    (rest : List Response) (host : String) (retry : Int)
    (loc rth : String)
    (hs : res.statusCode = 201 ∨ res.statusCode = 301)
    (hl : res.locationHeader = some loc)
    (hh : uriHost loc = some host)
    (ht : res.setRegistrationTokenHeader = some rth)
    (hk : lookupLast (parseHeaderParams rth) "registrationToken" = none ∨
          lookupLast (parseHeaderParams rth) "expires" = none ∨
          lookupLast (parseHeaderParams rth) "endpointId" = none) :
    registerEndpointGo (res :: rest) host retry =
      (RunResult.missingTokenFields, 1) := by
  have hm : res.statusCode ∈ expectedStatusCodes := by
    rcases hs with h | h <;> simp [expectedStatusCodes, h]
  rcases hk with hk | hk | hk <;>
    simp [registerEndpointGo, hm, hl, hh, ht, hk, jsTruthy]

/-- C4 witness: the spec's field-validation example — a 201 response whose
header carries `registrationToken` and `expires` but no `endpointId` —
fails with missing-token-fields. -/
theorem registerEndpoint_missing_token_fields_witness :
    registerEndpointGo
      [⟨201, some "https://hostA/v1/users/ME/endpoints",
        some "registrationToken=abc; expires=1700000000"⟩]
      "hostA" 2 =
    (RunResult.missingTokenFields, 1) :=
  registerEndpoint_missing_token_fields
    ⟨201, some "https://hostA/v1/users/ME/endpoints",
      some "registrationToken=abc; expires=1700000000"⟩
    [] "hostA" 2 "https://hostA/v1/users/ME/endpoints"
    "registrationToken=abc; expires=1700000000"
    (Or.inl rfl) rfl (by decide) rfl (Or.inr (Or.inr (by decide)))

/-- C9: the required-field check uses JavaScript truthiness, so a key
present with an empty value is rejected exactly like an absent key — an
accepted, host-matching response whose header contains one of the three
required keys with the value `""` fails with missing-token-fields. -/
theorem registerEndpoint_empty_field_rejected (res : Response)
    (rest : List Response) (host : String) (retry : Int)
    (loc rth : String)
    (hs : res.statusCode = 201 ∨ res.statusCode = 301)
    (hl : res.locationHeader = some loc)
    (hh : uriHost loc = some host)
    (ht : res.setRegistrationTokenHeader = some rth)
    (hk : lookupLast (parseHeaderParams rth) "registrationToken" = some "" ∨
          lookupLast (parseHeaderParams rth) "expires" = some "" ∨
          lookupLast (parseHeaderParams rth) "endpointId" = some "") :
    registerEndpointGo (res :: rest) host retry =
      (RunResult.missingTokenFields, 1) := by
  have hm : res.statusCode ∈ expectedStatusCodes := by
    rcases hs with h | h <;> simp [expectedStatusCodes, h]
  rcases hk with hk | hk | hk <;>
    simp [registerEndpointGo, hm, hl, hh, ht, hk, jsTruthy]

/-- C9 witness: `registrationToken=; expires=1700000000; endpointId={x}`
has the key `registrationToken` present but empty, and is rejected. -/
theorem registerEndpoint_empty_field_rejected_witness :
    registerEndpointGo
      [⟨201, some "https://hostA/v1/users/ME/endpoints",
        some "registrationToken=; expires=1700000000; endpointId={x}"⟩]
      "hostA" 2 =
    (RunResult.missingTokenFields, 1) :=
  registerEndpoint_empty_field_rejected
    ⟨201, some "https://hostA/v1/users/ME/endpoints",
      some "registrationToken=; expires=1700000000; endpointId={x}"⟩
    [] "hostA" 2 "https://hostA/v1/users/ME/endpoints"
    "registrationToken=; expires=1700000000; endpointId={x}"
    (Or.inl rfl) rfl (by decide) rfl (Or.inl (by decide))

/-- C5: on a successful handshake whose `expires` field is a non-empty
string of decimal digits, the returned token's expiration instant is
exactly 1000 times the decimal value of that field, in milliseconds since
the epoch. -/
theorem registerEndpoint_expiration_conversion (res : Response)
    (rest : List Response) (host : String) (retry : Int)
    (loc rth rt ex eid : String)
    (hs : res.statusCode = 201 ∨ res.statusCode = 301)
    (hl : res.locationHeader = some loc)
    (hh : uriHost loc = some host)
    (ht : res.setRegistrationTokenHeader = some rth)
    (hrt : lookupLast (parseHeaderParams rth) "registrationToken" = some rt)
    (hrtne : rt ≠ "")
    (hex : lookupLast (parseHeaderParams rth) "expires" = some ex)
    (hexne : ex.data ≠ [])
    (hexd : ∀ c ∈ ex.data, isDecDigit c = true)
    (heid : lookupLast (parseHeaderParams rth) "endpointId" = some eid)
    (heidne : eid ≠ "") :
    registerEndpointGo (res :: rest) host retry =
      (RunResult.ok
        ⟨rt, some (1000 * (digitsValue ex.data : Int)), eid, rth, host⟩, 1) := by
  have hm : res.statusCode ∈ expectedStatusCodes := by
    rcases hs with h | h <;> simp [expectedStatusCodes, h]
  have hpe := parseIntJS_digits ex hexne hexd
  have hexs : ex ≠ "" := fun e => hexne (by subst e; rfl)
  simp [registerEndpointGo, hm, hl, hh, ht, hrt, hex, heid, jsTruthy,
    hrtne, heidne, hexs, hpe]

/-- C5 witness: the spec's expiration-conversion example —
`expires=1700000000` yields the instant 1700000000000 milliseconds since
the epoch, exactly. -/
theorem registerEndpoint_expiration_conversion_witness :
    registerEndpointGo
      [⟨201, some "https://hostA/v1/users/ME/endpoints",
        some "registrationToken=abc; expires=1700000000; endpointId={x}"⟩]
      "hostA" 2 =
    (RunResult.ok
      ⟨"abc", some 1700000000000, "{x}",
        "registrationToken=abc; expires=1700000000; endpointId={x}",
        "hostA"⟩, 1) :=
  registerEndpoint_expiration_conversion
    ⟨201, some "https://hostA/v1/users/ME/endpoints",
      some "registrationToken=abc; expires=1700000000; endpointId={x}"⟩
    [] "hostA" 2 "https://hostA/v1/users/ME/endpoints"
    "registrationToken=abc; expires=1700000000; endpointId={x}"
    "abc" "1700000000" "{x}"
    (Or.inl rfl) rfl (by decide) rfl (by decide) (by decide) (by decide)
    (by decide) (by decide) (by decide) (by decide)

/-- C10: the `expires` field is never validated as numeric — an accepted,
host-matching response with all three keys non-empty but a non-numeric
`expires` value (JavaScript `parseInt` yields `NaN`, modelled `none`)
still succeeds and returns a token whose expiration instant is the invalid
instant, raising no error. -/
theorem registerEndpoint_nonnumeric_expires (res : Response)
    (rest : List Response) (host : String) (retry : Int)
    (loc rth rt ex eid : String)
    (hs : res.statusCode = 201 ∨ res.statusCode = 301)
    (hl : res.locationHeader = some loc)
    (hh : uriHost loc = some host)
    (ht : res.setRegistrationTokenHeader = some rth)
    (hrt : lookupLast (parseHeaderParams rth) "registrationToken" = some rt)
    (hrtne : rt ≠ "")
    (hex : lookupLast (parseHeaderParams rth) "expires" = some ex)
    (hexne : ex ≠ "")
    (hnan : parseIntJS ex = none)
    (heid : lookupLast (parseHeaderParams rth) "endpointId" = some eid)
    (heidne : eid ≠ "") :
    registerEndpointGo (res :: rest) host retry =
      (RunResult.ok ⟨rt, none, eid, rth, host⟩, 1) := by
  have hm : res.statusCode ∈ expectedStatusCodes := by
    rcases hs with h | h <;> simp [expectedStatusCodes, h]
  simp [registerEndpointGo, hm, hl, hh, ht, hrt, hex, heid, jsTruthy,
    hrtne, hexne, heidne, hnan]

/-- C10 witness: `expires=abc` is accepted and produces a token with the
invalid expiration instant. -/
theorem registerEndpoint_nonnumeric_expires_witness :
    registerEndpointGo
      [⟨201, some "https://hostA/v1/users/ME/endpoints",
        some "registrationToken=tok; expires=abc; endpointId={x}"⟩]
      "hostA" 2 =
    (RunResult.ok
      ⟨"tok", none, "{x}",
        "registrationToken=tok; expires=abc; endpointId={x}", "hostA"⟩, 1) :=
  registerEndpoint_nonnumeric_expires
    ⟨201, some "https://hostA/v1/users/ME/endpoints",
      some "registrationToken=tok; expires=abc; endpointId={x}"⟩
    [] "hostA" 2 "https://hostA/v1/users/ME/endpoints"
    "registrationToken=tok; expires=abc; endpointId={x}"
    "tok" "abc" "{x}"
    (Or.inl rfl) rfl (by decide) rfl (by decide) (by decide) (by decide)
    (by decide) (by decide) (by decide) (by decide)

/-- C2: a registration token is only ever produced from a response whose
status code is 201 or 301, whose `location` host equals the host actually
queried on that attempt (which the token records as its `host`), and whose
`set-registrationtoken` header yields all three required keys (with
non-empty values); every other path produces an error, never a token. -/
theorem registerEndpoint_token_invariant (responses : List Response)
    (host : String) (retry : Int) (token : RegistrationToken) (n : Nat)
    (h : registerEndpointGo responses host retry = (RunResult.ok token, n)) :
    ∃ res ∈ responses,
      (res.statusCode = 201 ∨ res.statusCode = 301) ∧
      (∃ loc, res.locationHeader = some loc ∧ uriHost loc = some token.host) ∧
      (∃ rth, res.setRegistrationTokenHeader = some rth ∧ token.raw = rth ∧
        jsTruthy (lookupLast (parseHeaderParams rth) "registrationToken") = true ∧
        jsTruthy (lookupLast (parseHeaderParams rth) "expires") = true ∧
        jsTruthy (lookupLast (parseHeaderParams rth) "endpointId") = true) := by
  induction responses generalizing host retry n with
  | nil => simp [registerEndpointGo] at h
  | cons res rest ih =>
    simp only [registerEndpointGo] at h
    split at h
    · simp at h
    · rename_i hacc
      split at h
      · simp at h
      · rename_i loc hloc
        split at h
        · simp at h
        · rename_i lhost hlhost
          split at h
          · split at h
            · injection h with h1 h2
              have hgo : registerEndpointGo rest lhost retry =
                  (RunResult.ok token, (registerEndpointGo rest lhost retry).2) := by
                rw [← h1]
              obtain ⟨r, hr, hp⟩ := ih lhost retry _ hgo
              exact ⟨r, List.mem_cons_of_mem res hr, hp⟩
            · simp at h
          · rename_i hne
            have heqh : lhost = host := not_not.mp hne
            split at h
            · simp at h
            · rename_i rth hrth
              split at h
              · simp at h
              · rename_i hfields
                injection h with h1 h2
                injection h1 with h3
                subst h3
                simp only [Bool.or_eq_true, not_or] at hfields
                obtain ⟨⟨hf1, hf2⟩, hf3⟩ := hfields
                refine ⟨res, List.mem_cons_self res rest, ?_, ?_, ?_⟩
                · have hc : expectedStatusCodes.contains res.statusCode = true := by
                    simpa using hacc
                  exact expected_of_contains res.statusCode hc
                · exact ⟨loc, hloc, by rw [heqh] at hlhost; exact hlhost⟩
                · exact ⟨rth, hrth, rfl, by simpa using hf1, by simpa using hf2,
                    by simpa using hf3⟩

/-- C2 witness: the invariant instantiated on a concrete one-response
successful handshake. -/
theorem registerEndpoint_token_invariant_witness :
    ∃ res ∈ [(⟨201, some "https://hostA/v1/users/ME/endpoints",
        some "registrationToken=abc; expires=1700000000; endpointId={x}"⟩ :
        Response)],
      (res.statusCode = 201 ∨ res.statusCode = 301) ∧
      (∃ loc, res.locationHeader = some loc ∧ uriHost loc = some "hostA") ∧
      (∃ rth, res.setRegistrationTokenHeader = some rth ∧
        "registrationToken=abc; expires=1700000000; endpointId={x}" = rth ∧
        jsTruthy (lookupLast (parseHeaderParams rth) "registrationToken") = true ∧
        jsTruthy (lookupLast (parseHeaderParams rth) "expires") = true ∧
        jsTruthy (lookupLast (parseHeaderParams rth) "endpointId") = true) :=
  registerEndpoint_token_invariant
    [⟨201, some "https://hostA/v1/users/ME/endpoints",
      some "registrationToken=abc; expires=1700000000; endpointId={x}"⟩]
    "hostA" 2
    ⟨"abc", some 1700000000000, "{x}",
      "registrationToken=abc; expires=1700000000; endpointId={x}", "hostA"⟩
    1 (by decide)

end SkypeHttp
